import Mathlib

/-!
# Verification of the anomaly-detection pipeline

A shallow embedding, in Lean 4, of the core of the `OMISlab6` anomaly
detection application (files `models.py`, `controllers.py`, `detectors.py`,
`data_storage.py`, `data_sources.py`, `alert_service.py`), together with
theorems settling the specification's claims about it.

Numeric values (Python floats) are modelled as exact rationals `ℚ`;
timestamps (`datetime`) as integers `ℤ`; Python dicts as association
lists.  Fallible code is modelled with `Except`/`Option`; the background
threads of the alert service and the data source are modelled as explicit
step relations over small event alphabets.
-/

namespace OMIS

/-! ## Data model (`models.py`) -/

/-- `RawData` from `models.py`: one ingested telemetry event.  The Python
`Dict[str, str]` attribute map is modelled as an association list. -/
structure RawData where
  id : String
  timestamp : ℤ
  source : String
  attributes : List (String × String)
deriving Repr, DecidableEq

/-- `PreparedData` from `models.py`: the extracted feature view. -/
structure PreparedData where
  id : String
  timestamp : ℤ
  data_type : String
  features : List ℚ
deriving Repr, DecidableEq

/-- `DetectionSettings` from `models.py`.  The Python `sensitivity` field is
a float that the detector compares against `None`, so it is modelled as
`Option ℚ`. -/
structure DetectionSettings where
  user_id : String
  sensitivity : Option ℚ
  monitored_sources : List String
deriving Repr, DecidableEq

/-- `Anomaly` from `models.py`. -/
structure Anomaly where
  anomaly_id : String
  data_id : String
  detection_time : ℤ
  score : ℚ
  description : String
  severity : String
deriving Repr, DecidableEq

/-- `Alert` from `models.py`. -/
structure Alert where
  alert_id : String
  anomaly_id : String
  time_raised : ℤ
  message : String
  status : String
deriving Repr, DecidableEq

/-! ## Numeric string parsing

The raw events encode their numeric attributes as decimal strings and the
extractor calls Python's `float(...)`, which raises `ValueError` on a
malformed string.  `parseFloat` embeds that conversion for the decimal
(optionally signed, optionally fractional, optionally exponent-carrying)
strings the system exchanges, returning `none` where Python raises. -/

/-- Parse a string of decimal digits into its value and digit count. -/
def parseDigits : List Char → Option (ℕ × ℕ)
  | [] => none
  | [c] => if c.isDigit then some (c.toNat - '0'.toNat, 1) else none
  | c :: rest =>
    if c.isDigit then
      match parseDigits rest with
      | some (v, k) => some ((c.toNat - '0'.toNat) * 10 ^ k + v, k + 1)
      | none => none
    else none

/-- Split a character list at the first occurrence of `sep`. -/
def splitAtChar (sep : Char) : List Char → List Char × Option (List Char)
  | [] => ([], none)
  | c :: rest =>
    if c = sep then ([], some rest)
    else
      let (pre, post) := splitAtChar sep rest
      (c :: pre, post)

/-- Parse an optionally signed decimal-digit string into an integer. -/
def parseSignedInt (cs : List Char) : Option ℤ :=
  match cs with
  | '-' :: rest => (parseDigits rest).map (fun p => -(p.1 : ℤ))
  | '+' :: rest => (parseDigits rest).map (fun p => (p.1 : ℤ))
  | _ => (parseDigits cs).map (fun p => (p.1 : ℤ))

/-- Embedding of Python's `float(...)` conversion on the decimal strings the
system exchanges: optional sign, integer part, optional `.` fraction part,
optional `e`/`E` exponent.  `none` models a raised `ValueError`. -/
def parseFloat (s : String) : Option ℚ :=
  let cs := s.data
  let (sign, body) : ℚ × List Char :=
    match cs with
    | '-' :: rest => (-1, rest)
    | '+' :: rest => (1, rest)
    | _ => (1, cs)
  let (mantissa, expPart) := splitAtChar 'e' body
  let (mantissa, expPart) :=
    match expPart with
    | some e => (mantissa, some e)
    | none => splitAtChar 'E' mantissa
  let (intPart, fracPart) := splitAtChar '.' mantissa
  let intVal : Option (ℕ × ℕ) := if intPart.isEmpty then some (0, 0) else parseDigits intPart
  let fracVal : Option (ℕ × ℕ) :=
    match fracPart with
    | none => some (0, 0)
    | some f => if f.isEmpty then some (0, 0) else parseDigits f
  match intVal, fracVal with
  | some (iv, ik), some (fv, fk) =>
    if ik = 0 ∧ fk = 0 then none
    else
      let base : ℚ := sign * ((iv : ℚ) + (fv : ℚ) / 10 ^ fk)
      match expPart with
      | none => some base
      | some e =>
        match parseSignedInt e with
        | some z => some (base * (10 : ℚ) ^ z)
        | none => none
  | _, _ => none

/-! ## Anomaly detector (`detectors.py`) -/

/-- The score computed by the `transaction` branch of
`SimpleAnomalyDetector.detect`: band `lower = s*8.0`,
`upper = s*22.0 + (1 - s*2.0)`; below the band the score is
`lower/time * 100` (or `200.0` when `time <= 0`, Python's
`... if time_val > 0 else 200.0`), above it `time/upper * 100`,
inside it `0`. -/
def transactionScore (s timeVal : ℚ) : ℚ :=
  let lower := s * 8
  let upper := s * 22 + (1 - s * 2)
  if timeVal < lower then
    (if timeVal > 0 then lower / timeVal * 100 else 200)
  else if timeVal > upper then timeVal / upper * 100
  else 0

/-- The description string built by the `transaction` branch. -/
def transactionDesc (s timeVal : ℚ) : String :=
  let lower := s * 8
  let upper := s * 22 + (1 - s * 2)
  if timeVal < lower then
    "transaction: Time " ++ toString timeVal ++ " below lower bound " ++ toString lower
  else if timeVal > upper then
    "transaction: Time " ++ toString timeVal ++ " above upper bound " ++ toString upper
  else ""

/-- `SimpleAnomalyDetector.detect`.  The detector object's mutable
`global_sensitivity` field is passed explicitly, and the fresh
`uuid.uuid4()` anomaly id is passed as `freshId`. -/
def detect (freshId : String) (globalSensitivity : ℚ) (data : PreparedData)
    (settings : DetectionSettings) : Option Anomaly :=
  let s := settings.sensitivity.getD globalSensitivity
  if data.data_type = "sensor" then
    let temp := data.features.headD 0
    let threshold := (11 / 10 - s) * 150
    if temp > threshold then
      let score := temp / threshold * 100
      let desc := "sensor: Temperature " ++ toString temp ++ " exceeds threshold " ++ toString threshold
      let severity := if score > 150 then "high" else "medium"
      some ⟨freshId, data.id, data.timestamp, score, desc, severity⟩
    else none
  else if data.data_type = "traffic" then
    let volume := data.features.headD 0
    let threshold := (11 / 10 - s) * 1000
    if volume > threshold then
      let score := volume / threshold * 100
      let desc := "traffic: Volume " ++ toString volume ++ " exceeds threshold " ++ toString threshold
      let severity := if score > 150 then "high" else "medium"
      some ⟨freshId, data.id, data.timestamp, score, desc, severity⟩
    else none
  else if data.data_type = "transaction" then
    let timeVal := data.features.headD 0
    let score := transactionScore s timeVal
    let desc := transactionDesc s timeVal
    if score > 100 then
      let severity := if score > 150 then "high" else "medium"
      some ⟨freshId, data.id, data.timestamp, score, desc, severity⟩
    else none
  else none

/-- `SimpleAnomalyDetector.train_model`'s inner `count_anomalies(s)`: how
many historical records the detector flags with a fresh
`DetectionSettings("default_user", s, ["any"])`. -/
def count_anomalies (g : ℚ) (historical_data : List PreparedData) (s : ℚ) : ℕ :=
  historical_data.countP
    (fun data => (detect "anomaly" g data ⟨"default_user", some s, ["any"]⟩).isSome)

/-- One iteration of `train_model`'s binary search: at `mid = (low+high)/2`,
`count < target` shrinks `high` to `mid`, otherwise `low` rises to `mid`. -/
def train_step (g : ℚ) (historical_data : List PreparedData) (target : ℕ)
    (lh : ℚ × ℚ) : ℚ × ℚ :=
  let mid := (lh.1 + lh.2) / 2
  if count_anomalies g historical_data mid < target then (lh.1, mid) else (mid, lh.2)

/-- `SimpleAnomalyDetector.train_model`: the detector's global sensitivity
before the call is `g`; the returned value is the global sensitivity after
the call (the Python method mutates `self.global_sensitivity`). -/
def train_model (g : ℚ) (historical_data : List PreparedData) : ℚ :=
  if historical_data.isEmpty then g
  else
    let target := historical_data.length / 2
    ((train_step g historical_data target)^[20] ((0 : ℚ), (1 : ℚ))).1

/-- The calibration routine exactly as the specification words it, for
comparison with the code-derived `train_model`: a 20-iteration binary
search over sensitivity in `[0,1]`; at each midpoint the flagged records
are counted under a fresh per-call default setting whose sensitivity is
the midpoint and whose monitored sources are the wildcard; the target
count is `floor(n / 2)`; when the count reaches the target the midpoint
is kept as the low bound, otherwise the high bound shrinks to the
midpoint; the surviving low bound is the new global sensitivity; an empty
historical set leaves the global sensitivity unchanged. -/
def spec_calibration (g : ℚ) (historical : List PreparedData) : ℚ :=
  if historical = [] then g
  else
    let flagged : ℚ → ℕ := fun mid =>
      historical.countP
        (fun d => (detect "anomaly" g d ⟨"default_user", some mid, ["any"]⟩).isSome)
    let target := historical.length / 2
    let step : ℚ × ℚ → ℚ × ℚ := fun lh =>
      let mid := (lh.1 + lh.2) / 2
      if target ≤ flagged mid then (mid, lh.2) else (lh.1, mid)
    (step^[20] ((0 : ℚ), (1 : ℚ))).1

/-! ## Feature extraction (`controllers.py`, `AnomalyController.preprocess_data`) -/

/-- The failures of `preprocess_data`: a malformed numeric attribute string
(Python's `float(...)` raising `ValueError`, the specification's
`ValidationError`) or an unrecognized `type` discriminant (the `raise
ValueError("Unknown data type")`, the specification's
`UnknownCategoryError`). -/
inductive PrepError where
  | validationError
  | unknownCategory
deriving Repr, DecidableEq

/-- `AnomalyController.preprocess_data`: maps a raw event to its prepared
record by the `type` discriminant.  `attributes.get(k, d)` is modelled by
`(lookup k).getD d`; a failing `float(...)` conversion becomes an
`Except.error`. -/
def preprocess_data (raw_data : RawData) : Except PrepError PreparedData :=
  let data_type := (raw_data.attributes.lookup "type").getD ""
  if data_type = "1" then
    match parseFloat ((raw_data.attributes.lookup "temperature").getD "0") with
    | some temp => .ok ⟨raw_data.id, raw_data.timestamp, "sensor", [temp]⟩
    | none => .error .validationError
  else if data_type = "2" then
    match parseFloat ((raw_data.attributes.lookup "time_of_day").getD "0") with
    | some time_of_day => .ok ⟨raw_data.id, raw_data.timestamp, "transaction", [time_of_day]⟩
    | none => .error .validationError
  else if data_type = "3" then
    match parseFloat ((raw_data.attributes.lookup "volume").getD "0") with
    | some volume => .ok ⟨raw_data.id, raw_data.timestamp, "traffic", [volume]⟩
    | none => .error .validationError
  else .error .unknownCategory

/-! ## Storage (`data_storage.py`, `InMemoryDataStorage`) -/

/-- The three append-only collections of `InMemoryDataStorage`. -/
structure Storage where
  raw_data : List RawData
  prepared_data : List PreparedData
  anomalies : List Anomaly
deriving Repr, DecidableEq

/-- `InMemoryDataStorage.store_raw_data`. -/
def store_raw_data (st : Storage) (data : RawData) : Storage :=
  { st with raw_data := st.raw_data ++ [data] }

/-- `InMemoryDataStorage.store_prepared_data`. -/
def store_prepared_data (st : Storage) (data : PreparedData) : Storage :=
  { st with prepared_data := st.prepared_data ++ [data] }

/-- `InMemoryDataStorage.store_anomaly`. -/
def store_anomaly (st : Storage) (anomaly : Anomaly) : Storage :=
  { st with anomalies := st.anomalies ++ [anomaly] }

/-- `InMemoryDataStorage.get_historical_data`: inclusive range scan. -/
def get_historical_data (st : Storage) (start_time end_time : ℤ) : List PreparedData :=
  st.prepared_data.filter (fun d => start_time ≤ d.timestamp ∧ d.timestamp ≤ end_time)

/-- Embedding of Python's `str.startswith`. -/
def strStartsWith (s pre : String) : Bool :=
  pre.data.isPrefixOf s.data

/-- The `role_map` of `InMemoryDataStorage.get_anomalies`, with the
`role_map.get(role, '')` default. -/
def roleMap (role : String) : String :=
  if role = "security" then "traffic"
  else if role = "equipment" then "sensor"
  else if role = "fraud" then "transaction"
  else ""

/-- `InMemoryDataStorage.get_anomalies`: anomalies whose description starts
with the role's category followed by a colon and whose detection time lies
in the inclusive range. -/
def get_anomalies (st : Storage) (role : String) (start_time end_time : ℤ) : List Anomaly :=
  st.anomalies.filter
    (fun a => strStartsWith a.description (roleMap role ++ ":")
      && decide (start_time ≤ a.detection_time) && decide (a.detection_time ≤ end_time))

/-! ## Pipeline controller (`controllers.py`, `AnomalyController`) -/

/-- `AnomalyController.process_new_raw_data`, acting on the storage.  The
per-event detection settings loaded from the config controller are passed
as `settings`, the detector's global sensitivity as `g`, and the fresh
anomaly uuid as `freshId`.  The second component is the anomaly handed to
`alert_service.send_alert`, if any.  When `preprocess_data` raises, the
exception propagates before any store call, so the storage is returned
untouched. -/
def process_new_raw_data (freshId : String) (g : ℚ) (settings : DetectionSettings)
    (st : Storage) (raw_data : RawData) : Storage × Option Anomaly :=
  match preprocess_data raw_data with
  | .error _ => (st, none)
  | .ok prepared =>
    let st := store_raw_data st raw_data
    let st := store_prepared_data st prepared
    match detect freshId g prepared settings with
    | some anomaly => (store_anomaly st anomaly, some anomaly)
    | none => (st, none)

/-! ## Alert lifecycle (`alert_service.py`, `GuiAlertService`) -/

/-- `User` from `models.py`. -/
structure User where
  user_id : String
  username : String
  role : String
  email : String
deriving Repr, DecidableEq

/-- The mutable state of a `GuiAlertService`: the `alerts` dict and the
`confirmed_times` dict, both keyed by alert id, modelled as association
lists, plus the `auto_confirm_timeout` configuration. -/
structure AlertServiceState where
  alerts : List (String × Alert)
  confirmed_times : List (String × ℤ)
  auto_confirm_timeout : Option ℤ
deriving Repr, DecidableEq

/-- Python dict assignment `d[k] = v` on an association list. -/
def assocSet (l : List (String × ℤ)) (k : String) (v : ℤ) : List (String × ℤ) :=
  if (l.lookup k).isSome then l.map (fun kv => if kv.1 = k then (k, v) else kv)
  else l ++ [(k, v)]

/-- The status of the stored alert with the given id, if present. -/
def alertStatusOf (st : AlertServiceState) (alert_id : String) : Option String :=
  (st.alerts.lookup alert_id).map (fun a => a.status)

/-- `GuiAlertService.update_alert_status`: for an existing alert id the
status is set to `new_status`; setting `confirmed` records a confirmation
time, any other status deletes a recorded one; an unknown id is a no-op.
The GUI refresh the Python method attempts afterwards is outside the
embedded core. -/
def update_alert_status (now : ℤ) (st : AlertServiceState)
    (alert_id new_status : String) : AlertServiceState :=
  if (st.alerts.lookup alert_id).isSome then
    { st with
      alerts := st.alerts.map
        (fun kv => if kv.1 = alert_id then (kv.1, { kv.2 with status := new_status }) else kv),
      confirmed_times :=
        if new_status = "confirmed" then assocSet st.confirmed_times alert_id now
        else st.confirmed_times.filter (fun kv => kv.1 ≠ alert_id) }
  else st

/-- `GuiAlertService.send_alert`: stores a fresh alert with status `open`;
the Boolean records whether an `auto_confirm` timer thread was spawned
(`auto_confirm_timeout` truthy and positive). -/
def send_alert (freshId : String) (now : ℤ) (anomaly : Anomaly) (user : User)
    (st : AlertServiceState) : AlertServiceState × Bool :=
  let message := "Alert for user " ++ user.username ++ ": Anomaly "
    ++ anomaly.description ++ " Score: " ++ toString anomaly.score
  let alert : Alert := ⟨freshId, anomaly.anomaly_id, now, message, "open"⟩
  ({ st with alerts := st.alerts ++ [(freshId, alert)] },
   match st.auto_confirm_timeout with
   | some t => decide (0 < t)
   | none => false)

/-- Program counter of one `auto_confirm` timer thread: `sleeping` before
the guard check, `scheduled` after the guard passed and `do_confirm` was
handed to `app.after`, `done` afterwards. -/
inductive TimerPc where
  | sleeping
  | scheduled
  | done
deriving Repr, DecidableEq

/-- An alert-service state together with the program counter of the
auto-confirm timer watching one alert. -/
structure TimerRace where
  svc : AlertServiceState
  pc : TimerPc
deriving Repr, DecidableEq

/-- The event alphabet for the interleaving of one auto-confirm timer with
manual `update_alert_status` calls on the same alert. -/
inductive AlertEvent where
  | manualSet (new_status : String)
  | timerCheck
  | timerFire
deriving Repr, DecidableEq

/-- One interleaving step, faithful to `GuiAlertService.auto_confirm`:
`timerCheck` is the guard `alert_id in self.alerts and
self.alerts[alert_id].status == 'open'` run after the sleep (passing it
schedules `do_confirm`, failing it ends the timer); `timerFire` is the
scheduled `do_confirm` running `update_alert_status(alert_id, 'confirmed')`
unconditionally; `manualSet` is a manual `update_alert_status` call. -/
def timerStep (now : ℤ) (alert_id : String) (st : TimerRace) : AlertEvent → TimerRace
  | .manualSet ns => { st with svc := update_alert_status now st.svc alert_id ns }
  | .timerCheck =>
    if st.pc = .sleeping then
      if alertStatusOf st.svc alert_id = some "open" then { st with pc := .scheduled }
      else { st with pc := .done }
    else st
  | .timerFire =>
    if st.pc = .scheduled then
      { svc := update_alert_status now st.svc alert_id "confirmed", pc := .done }
    else st

/-- Run an interleaving of timer and manual events. -/
def timerRun (now : ℤ) (alert_id : String) (st : TimerRace)
    (events : List AlertEvent) : TimerRace :=
  events.foldl (timerStep now alert_id) st

/-! ## Event source (`data_sources.py`, `SimulatedDataSource`) -/

/-- `SimulatedDataSource.generate_loop`, with the listener slot modelled as
an optional callback that may fail (`Except.error` models a raised
exception) and the event synthesized at each count supplied by `gen`.
The loop body follows the source: generate one event, push it to the
listener if one is registered (the call is not guarded, so a raised
exception propagates and the loop terminates there, reported as
`.error count`), then increment `generated_count`; the loop runs while
`generated_count < 300`.  `fuel` bounds the recursion; `fuel = 300`
suffices from a zero count.  A normal exit returns `.ok` with the final
`generated_count`. -/
def generate_loop (listener : Option (RawData → Except Unit Unit)) (gen : ℕ → RawData) :
    ℕ → ℕ → Except ℕ ℕ
  | 0, generated_count => .ok generated_count
  | fuel + 1, generated_count =>
    if generated_count < 300 then
      match listener with
      | some callback =>
        match callback (gen generated_count) with
        | .ok _ => generate_loop listener gen fuel (generated_count + 1)
        | .error _ => .error generated_count
      | none => generate_loop listener gen fuel (generated_count + 1)
    else .ok generated_count

/-- A concrete detector-produced anomaly (sensitivity 0.5, traffic volume
1500, threshold 600) used to exercise the storage queries. -/
def sampleTrafficAnomaly : Anomaly :=
  (detect "a1" (1 / 2) ⟨"d1", 5, "traffic", [1500]⟩ ⟨"u", some (1 / 2), ["any"]⟩).getD
    ⟨"", "", 0, 0, "", ""⟩

/-! ## Branch lemmas for the detector -/

/-- Unfolding of `detect` on a sensor record. -/
theorem detect_sensor_eq (fid uid did : String) (g : ℚ) (ts : ℤ) (srcs : List String)
    (s v : ℚ) :
    detect fid g ⟨did, ts, "sensor", [v]⟩ ⟨uid, some s, srcs⟩ =
      (if v > (11 / 10 - s) * 150 then
        some ⟨fid, did, ts, v / ((11 / 10 - s) * 150) * 100,
          "sensor: Temperature " ++ toString v ++ " exceeds threshold " ++
            toString ((11 / 10 - s) * 150),
          if v / ((11 / 10 - s) * 150) * 100 > 150 then "high" else "medium"⟩
      else none) := rfl

/-- Unfolding of `detect` on a traffic record. -/
theorem detect_traffic_eq (fid uid did : String) (g : ℚ) (ts : ℤ) (srcs : List String)
    (s v : ℚ) :
    detect fid g ⟨did, ts, "traffic", [v]⟩ ⟨uid, some s, srcs⟩ =
      (if v > (11 / 10 - s) * 1000 then
        some ⟨fid, did, ts, v / ((11 / 10 - s) * 1000) * 100,
          "traffic: Volume " ++ toString v ++ " exceeds threshold " ++
            toString ((11 / 10 - s) * 1000),
          if v / ((11 / 10 - s) * 1000) * 100 > 150 then "high" else "medium"⟩
      else none) := rfl

/-- Unfolding of `detect` on a transaction record. -/
theorem detect_transaction_eq (fid uid did : String) (g : ℚ) (ts : ℤ) (srcs : List String)
    (s v : ℚ) :
    detect fid g ⟨did, ts, "transaction", [v]⟩ ⟨uid, some s, srcs⟩ =
      (if transactionScore s v > 100 then
        some ⟨fid, did, ts, transactionScore s v, transactionDesc s v,
          if transactionScore s v > 150 then "high" else "medium"⟩
      else none) := rfl

/-- A record of none of the three categories is never flagged. -/
theorem detect_unknown_eq (fid : String) (g : ℚ) (d : PreparedData)
    (stg : DetectionSettings) (h1 : d.data_type ≠ "sensor") (h2 : d.data_type ≠ "traffic")
    (h3 : d.data_type ≠ "transaction") :
    detect fid g d stg = none := by
  simp [detect, h1, h2, h3]

/-! ## C1 -/

/-- C1: for every sensitivity s in [0,1] and every prepared sensor record
with feature value v, `detect` flags an anomaly iff v exceeds the threshold
(1.1 - s) * 150, with score v / threshold * 100 and severity "high" exactly
when the score exceeds 150, "medium" otherwise; the same rule with
threshold (1.1 - s) * 1000 holds for traffic records. -/
theorem detect_sensor_traffic_threshold (fid uid did : String) (g : ℚ) (ts : ℤ)
    (srcs : List String) (s v : ℚ) (h0 : 0 ≤ s) (h1 : s ≤ 1) :
    (((detect fid g ⟨did, ts, "sensor", [v]⟩ ⟨uid, some s, srcs⟩).isSome = true ↔
        (11 / 10 - s) * 150 < v)
      ∧ ∀ a, detect fid g ⟨did, ts, "sensor", [v]⟩ ⟨uid, some s, srcs⟩ = some a →
          a.score = v / ((11 / 10 - s) * 150) * 100
          ∧ (a.severity = "high" ↔ 150 < a.score)
          ∧ (a.severity = "medium" ↔ ¬150 < a.score))
    ∧ (((detect fid g ⟨did, ts, "traffic", [v]⟩ ⟨uid, some s, srcs⟩).isSome = true ↔
        (11 / 10 - s) * 1000 < v)
      ∧ ∀ a, detect fid g ⟨did, ts, "traffic", [v]⟩ ⟨uid, some s, srcs⟩ = some a →
          a.score = v / ((11 / 10 - s) * 1000) * 100
          ∧ (a.severity = "high" ↔ 150 < a.score)
          ∧ (a.severity = "medium" ↔ ¬150 < a.score)) := by
  constructor
  · rw [detect_sensor_eq]
    constructor
    · by_cases h : v > (11 / 10 - s) * 150
      · simp [h]
      · simp [h]
    · intro a ha
      by_cases h : v > (11 / 10 - s) * 150
      · rw [if_pos h] at ha
        obtain rfl : _ = a := Option.some.inj ha
        refine ⟨rfl, ?_, ?_⟩ <;> by_cases hs : v / ((11 / 10 - s) * 150) * 100 > 150 <;>
          simp [hs]
      · rw [if_neg h] at ha; exact absurd ha (by simp)
  · rw [detect_traffic_eq]
    constructor
    · by_cases h : v > (11 / 10 - s) * 1000
      · simp [h]
      · simp [h]
    · intro a ha
      by_cases h : v > (11 / 10 - s) * 1000
      · rw [if_pos h] at ha
        obtain rfl : _ = a := Option.some.inj ha
        refine ⟨rfl, ?_, ?_⟩ <;> by_cases hs : v / ((11 / 10 - s) * 1000) * 100 > 150 <;>
          simp [hs]
      · rw [if_neg h] at ha; exact absurd ha (by simp)

/-- Witness for C1: the specification's own scenario, sensitivity 0.5 and
temperature 180, threshold 90, is flagged. -/
theorem detect_sensor_traffic_threshold_check :
    (0 : ℚ) ≤ 1 / 2 ∧ (1 / 2 : ℚ) ≤ 1 ∧
    (detect "a" (1 / 2) ⟨"d", 0, "sensor", [180]⟩ ⟨"u", some (1 / 2), ["any"]⟩).isSome = true :=
  ⟨by norm_num, by norm_num,
    (detect_sensor_traffic_threshold "a" "u" "d" (1 / 2) 0 ["any"] (1 / 2) 180
      (by norm_num) (by norm_num)).1.1.mpr (by norm_num)⟩

/-! ## C2 -/

/-- Counterexample for C2: at sensitivity 0 a transaction record with
feature 0 lies inside the band (lower = 0 ≤ 0 ≤ 1 = upper), so the code
computes score 0 and returns no anomaly, while the claim asserts the score
200.0 whenever the feature is 0. -/
theorem transaction_zero_feature_score_cx :
    transactionScore 0 0 = 0 ∧ (0 : ℚ) ≠ 200 ∧
    detect "a" (1 / 2) ⟨"d", 0, "transaction", [0]⟩ ⟨"u", some 0, ["any"]⟩ = none :=
  ⟨by with_unfolding_all rfl, by norm_num, by with_unfolding_all rfl⟩

/-- C2 (amended): for sensitivity s in [0,1] and a transaction record with
feature v, with lower = s * 8.0 and upper = s * 22.0 + (1 - s * 2.0):
no anomaly whenever lower ≤ v ≤ upper (boundaries inclusive, strict
comparisons only); score = lower/v * 100 when 0 < v < lower; score = 200.0
when v = 0 and v is strictly below the lower bound; score = v/upper * 100
when v > upper; and an anomaly is emitted only if the score exceeds 100. -/
theorem transaction_band_rule (fid uid did : String) (g : ℚ) (ts : ℤ)
    (srcs : List String) (s v : ℚ) (h0 : 0 ≤ s) (h1 : s ≤ 1) :
    (s * 8 ≤ v → v ≤ s * 22 + (1 - s * 2) →
      detect fid g ⟨did, ts, "transaction", [v]⟩ ⟨uid, some s, srcs⟩ = none)
    ∧ (0 < v → v < s * 8 → transactionScore s v = s * 8 / v * 100)
    ∧ (v = 0 → v < s * 8 → transactionScore s v = 200)
    ∧ (s * 22 + (1 - s * 2) < v →
        transactionScore s v = v / (s * 22 + (1 - s * 2)) * 100)
    ∧ (∀ a, detect fid g ⟨did, ts, "transaction", [v]⟩ ⟨uid, some s, srcs⟩ = some a →
        a.score = transactionScore s v ∧ 100 < a.score) := by
  refine ⟨?_, ?_, ?_, ?_, ?_⟩
  · intro hlo hhi
    have hsc : transactionScore s v = 0 := by
      unfold transactionScore
      rw [if_neg (not_lt.mpr hlo), if_neg (not_lt.mpr hhi)]
    rw [detect_transaction_eq, hsc]
    norm_num
  · intro hv hlo
    unfold transactionScore
    rw [if_pos hlo, if_pos hv]
  · intro hv hlo
    subst hv
    unfold transactionScore
    rw [if_pos hlo, if_neg (by norm_num)]
  · intro hhi
    have hlow : ¬v < s * 8 := by
      push_neg
      nlinarith
    unfold transactionScore
    rw [if_neg hlow, if_pos hhi]
  · intro a ha
    rw [detect_transaction_eq] at ha
    by_cases hgate : transactionScore s v > 100
    · rw [if_pos hgate] at ha
      obtain rfl : _ = a := Option.some.inj ha
      exact ⟨rfl, hgate⟩
    · rw [if_neg hgate] at ha; exact absurd ha (by simp)

/-- Witness for C2: at sensitivity 0.5, feature 0 is strictly below the
lower bound 4, so the score is 200. -/
theorem transaction_band_rule_check :
    transactionScore (1 / 2) 0 = 200 :=
  (transaction_band_rule "a" "u" "d" (1 / 2) 0 ["any"] (1 / 2) 0
    (by norm_num) (by norm_num)).2.2.1 rfl (by norm_num)

/-! ## C10 -/

/-- C10: for sensitivity s in [0,1] and any prepared record with a
non-negative feature value, every anomaly `detect` returns has score
strictly above 100 and severity "medium" or "high" — for sensor and
traffic records because the threshold is positive, for transaction records
because of the explicit score > 100 gate. -/
theorem anomaly_score_gate (fid uid did dtype : String) (g : ℚ) (ts : ℤ)
    (srcs : List String) (s v : ℚ) (h0 : 0 ≤ s) (h1 : s ≤ 1) (hv : 0 ≤ v) (a : Anomaly)
    (ha : detect fid g ⟨did, ts, dtype, [v]⟩ ⟨uid, some s, srcs⟩ = some a) :
    100 < a.score ∧ (a.severity = "medium" ∨ a.severity = "high") := by
  by_cases hd1 : dtype = "sensor"
  · subst hd1
    rw [detect_sensor_eq] at ha
    by_cases h : v > (11 / 10 - s) * 150
    · rw [if_pos h] at ha
      obtain rfl : _ = a := Option.some.inj ha
      have hthr : (0 : ℚ) < (11 / 10 - s) * 150 := by nlinarith
      have h1d : (1 : ℚ) < v / ((11 / 10 - s) * 150) := (one_lt_div hthr).mpr h
      constructor
      · simpa using by nlinarith
      · by_cases hs : v / ((11 / 10 - s) * 150) * 100 > 150 <;> simp [hs]
    · rw [if_neg h] at ha; exact absurd ha (by simp)
  · by_cases hd2 : dtype = "traffic"
    · subst hd2
      rw [detect_traffic_eq] at ha
      by_cases h : v > (11 / 10 - s) * 1000
      · rw [if_pos h] at ha
        obtain rfl : _ = a := Option.some.inj ha
        have hthr : (0 : ℚ) < (11 / 10 - s) * 1000 := by nlinarith
        have h1d : (1 : ℚ) < v / ((11 / 10 - s) * 1000) := (one_lt_div hthr).mpr h
        constructor
        · simpa using by nlinarith
        · by_cases hs : v / ((11 / 10 - s) * 1000) * 100 > 150 <;> simp [hs]
      · rw [if_neg h] at ha; exact absurd ha (by simp)
    · by_cases hd3 : dtype = "transaction"
      · subst hd3
        rw [detect_transaction_eq] at ha
        by_cases hgate : transactionScore s v > 100
        · rw [if_pos hgate] at ha
          obtain rfl : _ = a := Option.some.inj ha
          refine ⟨hgate, ?_⟩
          by_cases hs : transactionScore s v > 150 <;> simp [hs]
        · rw [if_neg hgate] at ha; exact absurd ha (by simp)
      · rw [detect_unknown_eq fid g _ _ hd1 hd2 hd3] at ha
        exact absurd ha (by simp)

/-- Witness for C10: the anomaly flagged at sensitivity 0.5 for a sensor
reading of 180 has score above 100. -/
theorem anomaly_score_gate_check :
    100 < ((detect "a" (1 / 2) ⟨"d", 0, "sensor", [180]⟩
        ⟨"u", some (1 / 2), ["any"]⟩).getD ⟨"", "", 0, 0, "", ""⟩).score :=
  (anomaly_score_gate "a" "u" "d" "sensor" (1 / 2) 0 ["any"] (1 / 2) 180
    (by norm_num) (by norm_num) (by norm_num) _ (by with_unfolding_all rfl)).1

/-! ## C4 -/

/-- C4: `train_model` realizes the specification's calibration exactly:
with a non-empty historical list it performs 20 binary-search iterations
over sensitivity in [0,1], counting flagged records at each midpoint with
a fresh per-call default setting (midpoint sensitivity, wildcard monitored
sources) against target floor(n/2), raising the low bound to the midpoint
when the count reaches the target and shrinking the high bound to it
otherwise, and the surviving low bound becomes the new global sensitivity;
with an empty list the global sensitivity is unchanged. -/
theorem train_model_matches_calibration_spec (g : ℚ) (hist : List PreparedData) :
    train_model g hist = spec_calibration g hist := by
  unfold train_model spec_calibration
  by_cases h : hist = []
  · simp [h]
  · rw [if_neg (by simpa using h), if_neg h]
    have hstep : train_step g hist (hist.length / 2) =
        fun lh : ℚ × ℚ =>
          let mid := (lh.1 + lh.2) / 2
          if hist.length / 2 ≤
              hist.countP
                (fun d => (detect "anomaly" g d ⟨"default_user", some mid, ["any"]⟩).isSome) then
            (mid, lh.2)
          else (lh.1, mid) := by
      funext lh
      unfold train_step count_anomalies
      by_cases hc :
          hist.countP
            (fun d =>
              (detect "anomaly" g d
                ⟨"default_user", some ((lh.1 + lh.2) / 2), ["any"]⟩).isSome) <
            hist.length / 2
      · rw [if_pos hc]
        simp only []
        rw [if_neg (not_le.mpr hc)]
      · rw [if_neg hc]
        simp only []
        rw [if_pos (not_lt.mp hc)]
    exact congrArg (fun f : ℚ × ℚ → ℚ × ℚ => (f^[20] ((0 : ℚ), (1 : ℚ))).1) hstep

/-! ## C5 -/

/-- The default string "0" parses to the feature value 0. -/
theorem parseFloat_zero : parseFloat "0" = some 0 := by with_unfolding_all rfl

/-- Counterexample for C5: a type-"1" raw event with no temperature
attribute does not fail extraction; `attributes.get('temperature', '0')`
silently substitutes the default "0" and the extraction succeeds with
feature value 0. -/
theorem missing_attribute_silent_default_cx :
    preprocess_data ⟨"r1", 0, "src", [("type", "1")]⟩ =
      .ok ⟨"r1", 0, "sensor", [0]⟩ := by
  with_unfolding_all rfl

/-- C5 (amended): for a raw event with discriminant type "1", extraction
fails with a ValidationError when the temperature attribute is present but
is a malformed numeric string; when the attribute is missing, extraction
silently substitutes the default "0" and succeeds with feature value 0
(likewise for time_of_day under type "2" and volume under type "3"). -/
theorem extraction_error_rule (raw : RawData) :
    ((raw.attributes.lookup "type").getD "" = "1" →
      (∀ str, raw.attributes.lookup "temperature" = some str → parseFloat str = none →
        preprocess_data raw = .error .validationError)
      ∧ (raw.attributes.lookup "temperature" = none →
        preprocess_data raw = .ok ⟨raw.id, raw.timestamp, "sensor", [0]⟩))
    ∧ ((raw.attributes.lookup "type").getD "" = "2" →
      (∀ str, raw.attributes.lookup "time_of_day" = some str → parseFloat str = none →
        preprocess_data raw = .error .validationError)
      ∧ (raw.attributes.lookup "time_of_day" = none →
        preprocess_data raw = .ok ⟨raw.id, raw.timestamp, "transaction", [0]⟩))
    ∧ ((raw.attributes.lookup "type").getD "" = "3" →
      (∀ str, raw.attributes.lookup "volume" = some str → parseFloat str = none →
        preprocess_data raw = .error .validationError)
      ∧ (raw.attributes.lookup "volume" = none →
        preprocess_data raw = .ok ⟨raw.id, raw.timestamp, "traffic", [0]⟩)) := by
  refine ⟨fun htype => ⟨?_, ?_⟩, fun htype => ⟨?_, ?_⟩, fun htype => ⟨?_, ?_⟩⟩
  · intro str hstr hbad
    simp [preprocess_data, htype, hstr, hbad]
  · intro hmiss
    simp [preprocess_data, htype, hmiss, parseFloat_zero]
  · intro str hstr hbad
    simp [preprocess_data, htype, hstr, hbad]
  · intro hmiss
    simp [preprocess_data, htype, hmiss, parseFloat_zero]
  · intro str hstr hbad
    simp [preprocess_data, htype, hstr, hbad]
  · intro hmiss
    simp [preprocess_data, htype, hmiss, parseFloat_zero]

/-- Witness for C5: a present but malformed temperature string fails the
extraction with a ValidationError. -/
theorem extraction_error_rule_check :
    preprocess_data ⟨"r2", 0, "src", [("type", "1"), ("temperature", "abc")]⟩ =
      .error .validationError :=
  ((extraction_error_rule ⟨"r2", 0, "src", [("type", "1"), ("temperature", "abc")]⟩).1
    (by rfl)).1 "abc" (by rfl) (by rfl)

/-! ## C6 -/

/-- An extracted prepared record keeps the raw event's id. -/
theorem preprocess_data_ok_id (raw : RawData) (p : PreparedData)
    (h : preprocess_data raw = .ok p) : p.id = raw.id := by
  simp only [preprocess_data] at h
  split at h
  · split at h
    · obtain rfl := Except.ok.inj h; rfl
    · exact absurd h (by simp)
  · split at h
    · split at h
      · obtain rfl := Except.ok.inj h; rfl
      · exact absurd h (by simp)
    · split at h
      · split at h
        · obtain rfl := Except.ok.inj h; rfl
        · exact absurd h (by simp)
      · exact absurd h (by simp)

/-- A detected anomaly carries the id of the record that produced it. -/
theorem detect_some_data_id (fid : String) (g : ℚ) (d : PreparedData)
    (stg : DetectionSettings) (a : Anomaly) (h : detect fid g d stg = some a) :
    a.data_id = d.id := by
  simp only [detect] at h
  split at h
  · split at h
    · obtain rfl := Option.some.inj h; rfl
    · exact absurd h (by simp)
  · split at h
    · split at h
      · obtain rfl := Option.some.inj h; rfl
      · exact absurd h (by simp)
    · split at h
      · split at h
        · obtain rfl := Option.some.inj h; rfl
        · exact absurd h (by simp)
      · exact absurd h (by simp)

/-- C6: if feature extraction fails, `process_new_raw_data` stores nothing
for the event (the storage is returned untouched and no alert is raised);
and whenever an anomaly record is appended, the raw and prepared records
for the same event were appended in the same step, with matching ids. -/
theorem pipeline_failure_isolation (freshId : String) (g : ℚ) (settings : DetectionSettings)
    (st : Storage) (raw : RawData) :
    (∀ e, preprocess_data raw = .error e →
      process_new_raw_data freshId g settings st raw = (st, none))
    ∧ (∀ st' oa, process_new_raw_data freshId g settings st raw = (st', oa) →
        st'.anomalies ≠ st.anomalies →
        ∃ p a, preprocess_data raw = .ok p ∧ p.id = raw.id
          ∧ st'.raw_data = st.raw_data ++ [raw]
          ∧ st'.prepared_data = st.prepared_data ++ [p]
          ∧ st'.anomalies = st.anomalies ++ [a]
          ∧ a.data_id = raw.id) := by
  constructor
  · intro e he
    unfold process_new_raw_data
    rw [he]
  · intro st' oa hrun hne
    simp only [process_new_raw_data] at hrun
    split at hrun
    · injection hrun with h1 h2
      subst h1
      exact absurd rfl hne
    · rename_i p heq
      split at hrun
      · rename_i a heq2
        injection hrun with h1 h2
        subst h1
        refine ⟨p, a, heq, preprocess_data_ok_id raw p heq, rfl, rfl, rfl, ?_⟩
        rw [detect_some_data_id freshId g p settings a heq2, preprocess_data_ok_id raw p heq]
      · injection hrun with h1 h2
        subst h1
        simp [store_raw_data, store_prepared_data] at hne

/-- Witness for C6: an event with an unrecognized discriminant leaves the
storage untouched. -/
theorem pipeline_failure_isolation_check :
    process_new_raw_data "f" 0 ⟨"u", some (1 / 2), ["any"]⟩ ⟨[], [], []⟩
        ⟨"r", 0, "src", [("type", "9")]⟩ =
      (⟨[], [], []⟩, none) :=
  (pipeline_failure_isolation "f" 0 ⟨"u", some (1 / 2), ["any"]⟩ ⟨[], [], []⟩
      ⟨"r", 0, "src", [("type", "9")]⟩).1 .unknownCategory (by rfl)


/-! ## C7 -/

/-- When the transaction gate passes, the branch description starts with
the category prefix. -/
theorem transactionDesc_prefix (s v : ℚ) (h : 100 < transactionScore s v) :
    "transaction: Time ".data <+: (transactionDesc s v).data := by
  simp only [transactionDesc]
  split
  · simp only [String.data_append, List.append_assoc]
    exact List.prefix_append _ _
  · split
    · simp only [String.data_append, List.append_assoc]
      exact List.prefix_append _ _
    · rename_i h1 h2
      simp only [transactionScore] at h
      rw [if_neg h1, if_neg h2] at h
      norm_num at h

theorem detect_some_desc (fid : String) (g : ℚ) (d : PreparedData) (stg : DetectionSettings)
    (a : Anomaly) (h : detect fid g d stg = some a) :
    (d.data_type = "sensor" ∧ "sensor: Temperature ".data <+: a.description.data)
    ∨ (d.data_type = "traffic" ∧ "traffic: Volume ".data <+: a.description.data)
    ∨ (d.data_type = "transaction" ∧ "transaction: Time ".data <+: a.description.data) := by
  simp only [detect] at h
  split at h
  · rename_i h1
    split at h
    · obtain rfl := Option.some.inj h
      refine Or.inl ⟨h1, ?_⟩
      simp only [String.data_append, List.append_assoc]
      exact List.prefix_append _ _
    · exact absurd h (by simp)
  · split at h
    · rename_i h0 h1
      split at h
      · obtain rfl := Option.some.inj h
        refine Or.inr (Or.inl ⟨h1, ?_⟩)
        simp only [String.data_append, List.append_assoc]
        exact List.prefix_append _ _
      · exact absurd h (by simp)
    · split at h
      · rename_i h0 h0' h1
        split at h
        · rename_i hgate
          obtain rfl := Option.some.inj h
          exact Or.inr (Or.inr ⟨h1, transactionDesc_prefix _ _ hgate⟩)
        · exact absurd h (by simp)
      · exact absurd h (by simp)

/-- Membership in a role-filtered query gives the prefix and range facts. -/
theorem role_filter_mem (st : Storage) (role cat : String) (t1 t2 : ℤ) (a : Anomaly)
    (hrm : roleMap role = cat) (hmem : a ∈ get_anomalies st role t1 t2) :
    a ∈ st.anomalies ∧ strStartsWith a.description (cat ++ ":") = true
      ∧ t1 ≤ a.detection_time ∧ a.detection_time ≤ t2 := by
  unfold get_anomalies at hmem
  rw [List.mem_filter] at hmem
  obtain ⟨hm, hf⟩ := hmem
  rw [hrm] at hf
  simp only [Bool.and_eq_true, decide_eq_true_eq] at hf
  exact ⟨hm, hf.1.1, hf.1.2, hf.2⟩

/-- C7: for every store whose anomalies were all produced by the detector
and every time range, `get_anomalies` for role "security" returns only
anomalies whose producing record has category traffic (never sensor or
transaction), "equipment" only sensor ones and "fraud" only transaction
ones, each within the inclusive detection-time range. -/
theorem role_isolation (st : Storage) (t1 t2 : ℤ)
    (hprov : ∀ a ∈ st.anomalies, ∃ fid g d stg, detect fid g d stg = some a) :
    (∀ a ∈ get_anomalies st "security" t1 t2,
        strStartsWith a.description "traffic:" = true
        ∧ t1 ≤ a.detection_time ∧ a.detection_time ≤ t2
        ∧ (∀ fid g d stg, detect fid g d stg = some a → d.data_type = "traffic")
        ∧ (∃ fid g d stg, detect fid g d stg = some a ∧ d.data_type = "traffic"))
    ∧ (∀ a ∈ get_anomalies st "equipment" t1 t2,
        strStartsWith a.description "sensor:" = true
        ∧ t1 ≤ a.detection_time ∧ a.detection_time ≤ t2
        ∧ (∀ fid g d stg, detect fid g d stg = some a → d.data_type = "sensor")
        ∧ (∃ fid g d stg, detect fid g d stg = some a ∧ d.data_type = "sensor"))
    ∧ (∀ a ∈ get_anomalies st "fraud" t1 t2,
        strStartsWith a.description "transaction:" = true
        ∧ t1 ≤ a.detection_time ∧ a.detection_time ≤ t2
        ∧ (∀ fid g d stg, detect fid g d stg = some a → d.data_type = "transaction")
        ∧ (∃ fid g d stg, detect fid g d stg = some a ∧ d.data_type = "transaction")) := by
  refine ⟨?_, ?_, ?_⟩
  · intro a hmem
    obtain ⟨hm, hpre, ht1, ht2⟩ := role_filter_mem st "security" "traffic" t1 t2 a rfl hmem
    have hp : ("traffic:").data <+: a.description.data :=
      List.isPrefixOf_iff_prefix.mp hpre
    have hforce : ∀ fid g d stg, detect fid g d stg = some a → d.data_type = "traffic" := by
      intro fid g d stg hdet
      rcases detect_some_desc fid g d stg a hdet with ⟨hdt, hpd⟩ | ⟨hdt, hpd⟩ | ⟨hdt, hpd⟩
      · exfalso
        rcases List.prefix_or_prefix_of_prefix hp hpd with h' | h'
        · exact absurd h' (by decide)
        · exact absurd h' (by decide)
      · exact hdt
      · exfalso
        rcases List.prefix_or_prefix_of_prefix hp hpd with h' | h'
        · exact absurd h' (by decide)
        · exact absurd h' (by decide)
    obtain ⟨fid, g, d, stg, hdet⟩ := hprov a hm
    exact ⟨hpre, ht1, ht2, hforce, fid, g, d, stg, hdet, hforce _ _ _ _ hdet⟩
  · intro a hmem
    obtain ⟨hm, hpre, ht1, ht2⟩ := role_filter_mem st "equipment" "sensor" t1 t2 a rfl hmem
    have hp : ("sensor:").data <+: a.description.data :=
      List.isPrefixOf_iff_prefix.mp hpre
    have hforce : ∀ fid g d stg, detect fid g d stg = some a → d.data_type = "sensor" := by
      intro fid g d stg hdet
      rcases detect_some_desc fid g d stg a hdet with ⟨hdt, hpd⟩ | ⟨hdt, hpd⟩ | ⟨hdt, hpd⟩
      · exact hdt
      · exfalso
        rcases List.prefix_or_prefix_of_prefix hp hpd with h' | h'
        · exact absurd h' (by decide)
        · exact absurd h' (by decide)
      · exfalso
        rcases List.prefix_or_prefix_of_prefix hp hpd with h' | h'
        · exact absurd h' (by decide)
        · exact absurd h' (by decide)
    obtain ⟨fid, g, d, stg, hdet⟩ := hprov a hm
    exact ⟨hpre, ht1, ht2, hforce, fid, g, d, stg, hdet, hforce _ _ _ _ hdet⟩
  · intro a hmem
    obtain ⟨hm, hpre, ht1, ht2⟩ := role_filter_mem st "fraud" "transaction" t1 t2 a rfl hmem
    have hp : ("transaction:").data <+: a.description.data :=
      List.isPrefixOf_iff_prefix.mp hpre
    have hforce : ∀ fid g d stg, detect fid g d stg = some a → d.data_type = "transaction" := by
      intro fid g d stg hdet
      rcases detect_some_desc fid g d stg a hdet with ⟨hdt, hpd⟩ | ⟨hdt, hpd⟩ | ⟨hdt, hpd⟩
      · exfalso
        rcases List.prefix_or_prefix_of_prefix hp hpd with h' | h'
        · exact absurd h' (by decide)
        · exact absurd h' (by decide)
      · exfalso
        rcases List.prefix_or_prefix_of_prefix hp hpd with h' | h'
        · exact absurd h' (by decide)
        · exact absurd h' (by decide)
      · exact hdt
    obtain ⟨fid, g, d, stg, hdet⟩ := hprov a hm
    exact ⟨hpre, ht1, ht2, hforce, fid, g, d, stg, hdet, hforce _ _ _ _ hdet⟩

/-- Witness for C7: the sample traffic anomaly stored alone is returned by
the security query with the traffic prefix and in-range detection time. -/
theorem role_isolation_check :
    strStartsWith sampleTrafficAnomaly.description "traffic:" = true
    ∧ (0 : ℤ) ≤ sampleTrafficAnomaly.detection_time
    ∧ sampleTrafficAnomaly.detection_time ≤ 10 := by
  have h := (role_isolation ⟨[], [], [sampleTrafficAnomaly]⟩ 0 10
    (by
      intro a ha
      rw [List.mem_singleton] at ha
      subst ha
      exact ⟨"a1", 1 / 2, ⟨"d1", 5, "traffic", [1500]⟩, ⟨"u", some (1 / 2), ["any"]⟩,
        by with_unfolding_all rfl⟩)).1 sampleTrafficAnomaly
    (by with_unfolding_all decide)
  exact ⟨h.1, h.2.1, h.2.2.1⟩

/-! ## C9 -/

/-- Looking up a key after the status-setting map of
`update_alert_status` sees the updated value. -/
theorem lookup_map_set (l : List (String × Alert)) (k : String) (f : Alert → Alert) :
    (l.map fun kv => if kv.1 = k then (kv.1, f kv.2) else kv).lookup k
      = (l.lookup k).map f := by
  induction l with
  | nil => rfl
  | cons hd tl ih =>
    obtain ⟨a, b⟩ := hd
    simp only [List.map_cons]
    by_cases hk : a = k
    · subst hk
      simp [List.lookup_cons]
    · simp [List.lookup_cons, hk, beq_false_of_ne (Ne.symm hk), ih]

/-- Counterexample for C9: two `update_alert_status` calls move an alert
open → confirmed → open; the manager lets the status move backward out of
a terminal state, which the claim forbids. -/
theorem status_backward_transition_cx :
    alertStatusOf
      (update_alert_status 2
        (update_alert_status 1 ⟨[("a1", ⟨"a1", "an1", 0, "msg", "open"⟩)], [], some 120⟩
          "a1" "confirmed")
        "a1" "open") "a1" = some "open" := by
  decide

/-- C9 (amended): `update_alert_status` enforces no state machine: for an
existing alert id it unconditionally overwrites the status with the
requested value (last write wins), and for an unknown id it is a no-op;
forward-only movement holds only if callers issue only forward
transitions. -/
theorem update_alert_status_last_write (now : ℤ) (st : AlertServiceState)
    (alert_id new_status : String) :
    ((st.alerts.lookup alert_id).isSome = true →
      alertStatusOf (update_alert_status now st alert_id new_status) alert_id = some new_status)
    ∧ ((st.alerts.lookup alert_id).isSome = false →
      update_alert_status now st alert_id new_status = st) := by
  constructor
  · intro h
    obtain ⟨al, hal⟩ := Option.isSome_iff_exists.mp h
    unfold update_alert_status alertStatusOf
    rw [if_pos h]
    show ((st.alerts.map fun kv =>
        if kv.1 = alert_id then (kv.1, { kv.2 with status := new_status }) else kv).lookup
          alert_id).map (fun a => a.status) = some new_status
    rw [lookup_map_set st.alerts alert_id (fun a => { a with status := new_status })]
    rw [hal]
    rfl
  · intro h
    unfold update_alert_status
    rw [if_neg (by simp [h])]

/-- Witness for C9: setting an existing open alert to acknowledged leaves
it acknowledged. -/
theorem update_alert_status_last_write_check :
    alertStatusOf
      (update_alert_status 1 ⟨[("a1", ⟨"a1", "an1", 0, "msg", "open"⟩)], [], some 120⟩
        "a1" "acknowledged") "a1" = some "acknowledged" :=
  (update_alert_status_last_write 1
    ⟨[("a1", ⟨"a1", "an1", 0, "msg", "open"⟩)], [], some 120⟩ "a1" "acknowledged").1
    (by decide)

/-! ## C3 -/

/-- C3 (code behavior at the failing interleaving): the auto-confirm guard
and the deferred `do_confirm` are not atomic.  In the interleaving where
the timer's guard sees the alert still open, then a manual transition sets
it to acknowledged, and then the scheduled `do_confirm` runs, the timer
overwrites the manual transition and the alert ends confirmed — the claim
says the timer must be a no-op there.  When the manual transition happens
before the guard check, the guard works and the alert stays
acknowledged. -/
theorem auto_confirm_race_overwrites :
    alertStatusOf
      (timerRun 1 "a1" ⟨⟨[("a1", ⟨"a1", "an1", 0, "msg", "open"⟩)], [], some 120⟩, .sleeping⟩
        [.timerCheck, .manualSet "acknowledged", .timerFire]).svc "a1" = some "confirmed"
    ∧ alertStatusOf
      (timerRun 1 "a1" ⟨⟨[("a1", ⟨"a1", "an1", 0, "msg", "open"⟩)], [], some 120⟩, .sleeping⟩
        [.manualSet "acknowledged", .timerCheck, .timerFire]).svc "a1" = some "acknowledged" := by
  constructor <;> decide

/-! ## C8 -/

/-- Counterexample for C8: with a listener that raises on the first event,
the generation loop terminates immediately (after 0 completed events)
instead of continuing to the 300-event cap — the unguarded
`self.listener(raw)` call lets the exception propagate. -/
theorem listener_failure_kills_loop_cx :
    generate_loop (some fun _ => .error ()) (fun _ => ⟨"r", 0, "src", []⟩) 300 0 = .error 0
    ∧ (Except.error 0 : Except ℕ ℕ) ≠ .ok 300 :=
  ⟨rfl, by simp⟩

/-- Without a registered listener the loop always reaches the cap. -/
theorem generate_loop_none_comp (gen : ℕ → RawData) :
    ∀ fuel count, 300 ≤ count + fuel → count ≤ 300 →
      generate_loop none gen fuel count = .ok 300 := by
  intro fuel
  induction fuel with
  | zero =>
    intro count h1 h2
    have h3 : count = 300 := by omega
    simp [generate_loop, h3]
  | succ n ih =>
    intro count h1 h2
    by_cases hc : count < 300
    · simp only [generate_loop, if_pos hc]
      exact ih (count + 1) (by omega) (by omega)
    · have h3 : count = 300 := by omega
      simp [generate_loop, h3]

/-- With a never-failing listener the loop always reaches the cap. -/
theorem generate_loop_ok_comp (gen : ℕ → RawData) (f : RawData → Except Unit Unit)
    (hf : ∀ i, f (gen i) = .ok ()) :
    ∀ fuel count, 300 ≤ count + fuel → count ≤ 300 →
      generate_loop (some f) gen fuel count = .ok 300 := by
  intro fuel
  induction fuel with
  | zero =>
    intro count h1 h2
    have h3 : count = 300 := by omega
    simp [generate_loop, h3]
  | succ n ih =>
    intro count h1 h2
    by_cases hc : count < 300
    · simp only [generate_loop, if_pos hc, hf count]
      exact ih (count + 1) (by omega) (by omega)
    · have h3 : count = 300 := by omega
      simp [generate_loop, h3]

/-- A listener failure at event k stops the loop at k events. -/
theorem generate_loop_error_comp (gen : ℕ → RawData) (f : RawData → Except Unit Unit)
    (k : ℕ) (hk : k < 300) (hok : ∀ i, i < k → f (gen i) = .ok ())
    (herr : f (gen k) = .error ()) :
    ∀ fuel count, count ≤ k → k < count + fuel →
      generate_loop (some f) gen fuel count = .error k := by
  intro fuel
  induction fuel with
  | zero =>
    intro count h1 h2
    omega
  | succ n ih =>
    intro count h1 h2
    have hc : count < 300 := lt_of_le_of_lt h1 hk
    by_cases he : count = k
    · subst he
      simp [generate_loop, if_pos hc, herr]
    · simp only [generate_loop, if_pos hc, hok count (by omega)]
      exact ih (count + 1) (by omega) (by omega)

/-- C8 (amended): a run of the generation loop produces events up to the
hard cap of 300 when no listener is registered or the listener never
fails; but if the registered listener raises on its k-th event, the
exception propagates out of the unguarded callback call and the loop
terminates there — a listener failure is not swallowed and does end the
generation loop. -/
theorem generate_loop_rule (gen : ℕ → RawData) (f : RawData → Except Unit Unit) :
    (generate_loop none gen 300 0 = .ok 300)
    ∧ ((∀ i, f (gen i) = .ok ()) → generate_loop (some f) gen 300 0 = .ok 300)
    ∧ (∀ k, k < 300 → (∀ i, i < k → f (gen i) = .ok ()) → f (gen k) = .error () →
        generate_loop (some f) gen 300 0 = .error k) :=
  ⟨generate_loop_none_comp gen 300 0 (by omega) (by omega),
   fun hf => generate_loop_ok_comp gen f hf 300 0 (by omega) (by omega),
   fun k hk hok herr => generate_loop_error_comp gen f k hk hok herr 300 0 (by omega) (by omega)⟩

/-- Witness for C8: a listener that raises on the third event (id "x2")
ends the run with exactly two completed events. -/
theorem generate_loop_rule_check :
    generate_loop (some fun r => if r.id = "x2" then .error () else .ok ())
      (fun i => ⟨"x" ++ toString i, 0, "src", []⟩) 300 0 = .error 2 :=
  (generate_loop_rule (fun i => ⟨"x" ++ toString i, 0, "src", []⟩)
      (fun r => if r.id = "x2" then .error () else .ok ())).2.2 2 (by omega)
    (by intro i hi; interval_cases i <;> rfl) (by rfl)

end OMIS
